import Mathlib

/-!
Shallow embedding of the Monte Carlo investment simulation
(`src/conf/webpack.prod.config.js`, the TypeScript part of the file).

Modelling conventions:
* JS `number` is rendered as `ℚ`; `Math.round` (round half toward +infinity)
  is `⌊q + 1/2⌋`.
* The seeded normal generator (`new Random(10)` with `random.normal(mean, sd)`)
  is rendered as an oracle `stream : ℕ → ℚ` of standard normal draws consumed
  in call order, so draw `k` yields the sample `mean + sd * stream k`.
* The lodash `groupBy` dictionary `projectsByStartYear` is rendered as the
  total function `ℕ → List IProject`; a key missing from the JS dictionary
  corresponds to the empty list.
* JS object identity (`===`) on projects is rendered through an explicit
  `id` field; distinct array entries are distinct objects, hence distinct ids.
* In-place mutation by `Array.prototype.sort` is rendered explicitly:
  `calculateProjectEnvAfter` is the environment after a `calculateProject`
  call (its year row sorted), and `projectsAfterCreateEnvironment` is the
  caller's projects array after `createMonteCarloEnvironment` returned.
* A JS runtime crash (TypeError on `undefined`) and a non-terminating loop
  are both rendered as `none`; the bucket loop carries explicit fuel, and
  divergence is proved as `none` for every fuel value.
-/

/-- One project: `{ startYear, totalAmount }`. The extra `id` field models JS
object identity, used by the `===` comparison in `calculateRequiredAmount`. -/
structure IProject where
  id : ℕ
  startYear : ℕ
  totalAmount : ℚ
deriving DecidableEq

/-- Sub-bucket of a bucket, per group name: `{ group, min, max }`. -/
structure ISubBucket where
  group : String
  min : ℚ
  max : ℚ
deriving DecidableEq

/-- `IBucket`: `{ min, max, subBuckets }`; the JS string-keyed object
`subBuckets` is rendered as an association list in insertion order. -/
structure IBucket where
  min : ℚ
  max : ℚ
  subBuckets : List (String × ISubBucket)
deriving DecidableEq

/-- `IGroup`: a named outcome band `[from, to)`; an absent bound
(JS `undefined`) is `none` and means unbounded on that side. -/
structure IGroup where
  name : String
  description : String
  separator : Bool
  percentage : ℚ
  «from» : Option ℚ
  «to» : Option ℚ
deriving DecidableEq

/-- The central band `twoThird: { min, max }` of `IProjectResult`. -/
structure ITwoThird where
  min : ℚ
  max : ℚ
deriving DecidableEq

/-- `IProjectResult`: the per-project output record. -/
structure IProjectResult where
  min : ℚ
  max : ℚ
  median : ℚ
  twoThird : ITwoThird
  buckets : List IBucket
  groups : List IGroup
  project : IProject
deriving DecidableEq

/-- `IMonteCarloEnvironment`: the shared simulation context. -/
structure IMonteCarloEnvironment where
  investmentAmount : ℚ
  liquidity : ℚ
  noInterestReferenceLine : List ℚ
  numRuns : ℕ
  numYears : ℕ
  projectsByStartYear : ℕ → List IProject
  simulatedValues : List (List ℚ)

/-- `IMonteCarloSimulationOptions`: caller-supplied options; every field may
be absent at runtime (the TS type marks `volatility` required, but the JS
merge treats it like the rest). -/
structure IMonteCarloSimulationOptions where
  numYears : Option ℕ := none
  numRuns : Option ℕ := none
  projects : Option (List IProject) := none
  investmentAmount : Option ℚ := none
  performance : Option ℚ := none
  seed : Option ℕ := none
  volatility : Option ℚ := none
  liquidity : Option ℚ := none
deriving DecidableEq

/-- `IInitializedMonteCarloSimulationOptions`: options after the defaults
merge; `taskIndex` and `valuesPerWorker` are set only by the parallel driver. -/
structure IInitializedMonteCarloSimulationOptions where
  numYears : ℕ
  numRuns : ℕ
  projects : List IProject
  investmentAmount : ℚ
  performance : ℚ
  seed : Option ℕ := none
  taskIndex : Option ℕ := none
  valuesPerWorker : Option ℕ := none
  liquidity : ℚ
  volatility : ℚ

/-- Source function `initializeOptions`:
`Object.assign({}, defaults, options)` — each field of the result is the
caller's value when the property is present, the default otherwise. The
defaults object is literally
`{ investmentAmount: 1000000, liquidity: 10000, numRuns: 10000, numYears: 10,
  performance: 0, projects: [], seed: undefined, volatility: 0.01 }`.
(The name is shortened to `initOptions` in this development.) -/
def initOptions (options : IMonteCarloSimulationOptions) :
    IInitializedMonteCarloSimulationOptions :=
  { numYears := options.numYears.getD 10
    numRuns := options.numRuns.getD 10000
    projects := options.projects.getD []
    investmentAmount := options.investmentAmount.getD 1000000
    performance := options.performance.getD 0
    seed := options.seed
    taskIndex := none
    valuesPerWorker := none
    liquidity := options.liquidity.getD 10000
    volatility := options.volatility.getD (1/100) }

/-- JS `Math.round`: round half toward positive infinity. -/
def jsRound (q : ℚ) : ℤ := ⌊q + 1/2⌋

/-- `Math.round(n / k)` for natural `n`, `k`: `⌊(2n + k) / 2k⌋`. -/
def jsRoundDiv (n k : ℕ) : ℕ := (2 * n + k) / (2 * k)

/-- `Number.MAX_VALUE`. -/
def jsMaxValue : ℚ := 2 ^ 1024 - 2 ^ 971

/-- `Number.MIN_VALUE` (the smallest positive double — not a negative bound). -/
def jsMinValue : ℚ := 1 / 2 ^ 1074

/-- JS `Array.prototype.sort` with comparator `(a, b) => a.startYear - b.startYear`
(stable in the host engines): stable insertion sort by `startYear`. -/
def sortByStartYear (ps : List IProject) : List IProject :=
  List.insertionSort (fun a b => a.startYear ≤ b.startYear) ps

/-- JS `Array.prototype.sort` with comparator `(a, b) => a - b`: ascending sort
of the simulated values. -/
def sortValues (l : List ℚ) : List ℚ :=
  List.insertionSort (fun a b : ℚ => a ≤ b) l

/-- The lodash dictionary `groupBy(projects, p => p.startYear)` built in
`createMonteCarloEnvironment` from the (in-place sorted) projects array,
viewed as a lookup function: key `y` holds the same-`startYear` projects in
sorted-array order. -/
def envProjectsByStartYear (ps : List IProject) : ℕ → List IProject :=
  fun y => (sortByStartYear ps).filter (fun p => p.startYear == y)

/-- Source function `projectsToCashFlows`: for each `year < numYears`, the
negative sum of `totalAmount` over `projectsByStartYear[year] || []`. -/
def projectsToCashFlows (projectsByStartYear : ℕ → List IProject)
    (numYears : ℕ) : List ℚ :=
  (List.range numYears).map
    (fun year => -(((projectsByStartYear year).map (fun p => p.totalAmount)).sum))

/-- Loop body of `calculateNoInterestReferenceLine`: starting from
`investmentAmountLeft`, add each year's cash flow and record the balance. -/
def nirlAux (cf : ℕ → ℚ) : ℕ → ℕ → ℚ → List ℚ
  | 0, _, _ => []
  | n + 1, year, left =>
    (left + cf year) :: nirlAux cf n (year + 1) (left + cf year)

/-- Source function `calculateNoInterestReferenceLine`: running balance from
`investmentAmount`, decremented by each year's outflow, no growth applied. -/
def calculateNoInterestReferenceLine (cashFlows : List ℚ)
    (investmentAmount : ℚ) (numYears : ℕ) : List ℚ :=
  nirlAux (fun y => cashFlows.getD y 0) numYears 0 investmentAmount

/-- Loop body of `toAbsoluteIndices`: walk the relative index path carrying the
unrounded portfolio value and the previous year's (unrounded) index; emit the
rounded absolute value for each year. -/
def toAbsoluteIndicesAux (cashFlows : List ℚ) :
    List ℚ → ℕ → ℚ → ℚ → List ℚ
  | [], _, _, _ => []
  | idx :: rest, year, currentPortfolioValue, previousYearIndex =>
    let cashFlowStartOfYear : ℚ := if year = 0 then 0 else cashFlows.getD (year - 1) 0
    let newValue := (currentPortfolioValue + cashFlowStartOfYear) * (idx / previousYearIndex)
    ((jsRound newValue : ℤ) : ℚ) :: toAbsoluteIndicesAux cashFlows rest (year + 1) newValue idx

/-- Source function `toAbsoluteIndices`: convert a relative index path (index
100 at year 0) into rounded absolute portfolio values, applying the previous
year's cash flow at the start of each year (zero for year 0). -/
def toAbsoluteIndices (indices : List ℚ) (investmentAmount : ℚ)
    (cashFlows : List ℚ) : List ℚ :=
  toAbsoluteIndicesAux cashFlows indices 0 investmentAmount 100

/-- Relative index path of one run, after the initial 100: year `i` multiplies
the previous index by `1 + normal(performance, volatility)`, the draws coming
from the shared generator in call order. -/
def relativeIndicesAux (stream : ℕ → ℚ) (performance volatility : ℚ) :
    ℕ → ℕ → ℚ → List ℚ
  | 0, _, _ => []
  | n + 1, k, prev =>
    let next := prev * (1 + (performance + volatility * stream k))
    next :: relativeIndicesAux stream performance volatility n (k + 1) next

/-- The full relative index path `[100, ...]` of run `run`; the generator is
shared across runs, so run `run` consumes draws `run * numYears + i`. -/
def relativeIndices (stream : ℕ → ℚ) (performance volatility : ℚ)
    (numYears run : ℕ) : List ℚ :=
  100 :: relativeIndicesAux stream performance volatility numYears (run * numYears) 100

/-- Source function `simulateOutcomes`: `result[year][run]` is the rounded
absolute value of run `run` at `year`, for `year` in `0..numYears` and
`run < numRuns`. -/
def simulateOutcomes (stream : ℕ → ℚ) (cashFlows : List ℚ)
    (investmentAmount : ℚ) (numRuns numYears : ℕ)
    (performance volatility : ℚ) : List (List ℚ) :=
  (List.range (numYears + 1)).map
    (fun year =>
      (List.range numRuns).map
        (fun run =>
          (toAbsoluteIndices (relativeIndices stream performance volatility numYears run)
              investmentAmount cashFlows).getD year 0))

/-- The `projectsToSimulate` slice: `options.projects` unless both `taskIndex`
and `valuesPerWorker` are present and truthy (nonzero), in which case the
worker slice `projects.slice(t * w, (t + 1) * w)`. -/
def projectsToSimulate (options : IInitializedMonteCarloSimulationOptions) :
    List IProject :=
  match options.taskIndex, options.valuesPerWorker with
  | some t, some w =>
    if t ≠ 0 ∧ w ≠ 0 then ((options.projects.drop (t * w)).take w) else options.projects
  | _, _ => options.projects

/-- Caller-visible content of `options.projects` after
`createMonteCarloEnvironment` returned: `options.projects.sort(...)` sorts the
caller's array in place, so the array now holds the stable
startYear-sorted list. -/
def projectsAfterCreateEnvironment
    (options : IInitializedMonteCarloSimulationOptions) : List IProject :=
  sortByStartYear options.projects

/-- Source function `createMonteCarloEnvironment` with the random generator
abstracted as `stream`. Note: the environment's `numYears` field is
`projectsToSimulate.reduce((memo, p) => Math.max(memo, p.startYear), 0)`,
while the schedule and the simulated matrix are built from `options.numYears`. -/
def createMonteCarloEnvironment (stream : ℕ → ℚ)
    (options : IInitializedMonteCarloSimulationOptions) :
    IMonteCarloEnvironment :=
  let projectsByStartYear := envProjectsByStartYear options.projects
  let cashFlows := projectsToCashFlows projectsByStartYear options.numYears
  { investmentAmount := options.investmentAmount
    liquidity := options.liquidity
    noInterestReferenceLine :=
      calculateNoInterestReferenceLine cashFlows options.investmentAmount options.numYears
    numRuns := options.numRuns
    numYears := ((projectsToSimulate options).map (fun p => p.startYear)).foldl max 0
    projectsByStartYear := projectsByStartYear
    simulatedValues :=
      simulateOutcomes stream cashFlows options.investmentAmount
        options.numRuns options.numYears options.performance options.volatility }

/-- Source function `createGroups`: the four bands, in order green, yellow,
gray, red. `noInterestReference` is `Option`al because the call site reads
`environment.noInterestReferenceLine[project.startYear]`, which is absent
(`undefined`) when `startYear` is out of the line's range. -/
def createGroups (requiredAmount : ℚ) (noInterestReference : Option ℚ)
    (liquidity : ℚ) : List IGroup :=
  [ { description := "Ziel erreichbar", «from» := some requiredAmount,
      name := "green", percentage := 0, separator := true, «to» := none },
    { description := "mit Zusatzliquiditaet erreichbar",
      «from» := some (requiredAmount - liquidity), name := "yellow",
      percentage := 0, separator := true, «to» := some requiredAmount },
    { description := "nicht erreichbar", «from» := noInterestReference,
      name := "gray", percentage := 0, separator := false,
      «to» := some (requiredAmount - liquidity) },
    { description := "nicht erreichbar, mit Verlust", «from» := none,
      name := "red", percentage := 0, separator := false,
      «to» := noInterestReference } ]

/-- The membership test of `groupForValue`:
`(typeof from === "undefined" || from <= value) && (typeof to === "undefined" || to > value)`. -/
def memberB (g : IGroup) (value : ℚ) : Bool :=
  (match g.«from» with
   | none => true
   | some f => decide (f ≤ value)) &&
  (match g.«to» with
   | none => true
   | some t => decide (t > value))

/-- Source function `groupForValue`: first group whose band contains `value`
(the source applies a non-null assertion to the result). -/
def groupForValue (value : ℚ) (groups : List IGroup) : Option IGroup :=
  groups.find? (fun g => memberB g value)

/-- Source function `calculateRequiredAmount`: own `totalAmount` plus the
`totalAmount` of the same-year projects iterated before hitting the project
itself (`===`, modelled by `id`). -/
def calculateRequiredAmount (project : IProject)
    (projectsSameYear : List IProject) : ℚ :=
  project.totalAmount +
    ((projectsSameYear.takeWhile (fun other => other.id != project.id)).map
      (fun p => p.totalAmount)).sum

/-- Source function `median`: standard even/odd median of the (sorted) list. -/
def median (values : List ℚ) : ℚ :=
  let half := values.length / 2
  if values.length % 2 = 1 then values.getD half 0
  else (values.getD (half - 1) 0 + values.getD half 0) / 2

/-- Update of `valuesByGroup[name] = (valuesByGroup[name] || 0) + 1`. -/
def bumpCount (counts : List (String × ℕ)) (name : String) :
    List (String × ℕ) :=
  match counts.lookup name with
  | none => counts ++ [(name, 1)]
  | some c => counts.map (fun kv => if kv.1 = name then (kv.1, c + 1) else kv)

/-- Update of `bucket.subBuckets[name]`: fetch or create the sub-bucket
(initial `min = Number.MAX_VALUE`, `max = Number.MIN_VALUE`), then extend its
range by `value`. -/
def updateSubBuckets (subs : List (String × ISubBucket)) (name : String)
    (value : ℚ) : List (String × ISubBucket) :=
  match subs.lookup name with
  | none =>
    subs ++ [(name, { group := name, min := min jsMaxValue value,
                      max := max jsMinValue value })]
  | some sb =>
    subs.map (fun kv =>
      if kv.1 = name then
        (kv.1, { sb with min := min sb.min value, max := max sb.max value })
      else kv)

/-- The inner bucket loop `for (j = i; j < i + bucketSize; ++j)`: reading past
the end of `values` or a failed group lookup is the JS crash, rendered `none`. -/
def bucketInner (groups : List IGroup) (values : List ℚ) :
    ℕ → ℕ → IBucket → List (String × ℕ) → Option (IBucket × List (String × ℕ))
  | 0, _, bucket, counts => some (bucket, counts)
  | c + 1, j, bucket, counts =>
    match values.get? j with
    | none => none
    | some value =>
      match groupForValue value groups with
      | none => none
      | some g =>
        bucketInner groups values c (j + 1)
          { min := min bucket.min value
            max := max bucket.max value
            subBuckets := updateSubBuckets bucket.subBuckets g.name value }
          (bumpCount counts g.name)

/-- The outer bucket loop `for (i = 0; i < values.length; i += bucketSize)`,
with explicit fuel: `none` when the fuel runs out before the loop exits
(in particular, for every fuel value when `bucketSize = 0` and the slice is
nonempty — the loop never advances). -/
def bucketLoopAux (groups : List IGroup) (values : List ℚ) (bucketSize : ℕ) :
    ℕ → ℕ → List IBucket → List (String × ℕ) →
    Option (List IBucket × List (String × ℕ))
  | 0, i, buckets, counts =>
    if i < values.length then none else some (buckets, counts)
  | fuel + 1, i, buckets, counts =>
    if i < values.length then
      match bucketInner groups values bucketSize i
          { min := jsMaxValue, max := jsMinValue, subBuckets := [] } counts with
      | none => none
      | some (bucket, counts2) =>
        bucketLoopAux groups values bucketSize fuel (i + bucketSize)
          (buckets ++ [bucket]) counts2
    else some (buckets, counts)

/-- Source function `calculateProject` (result component). `none` models a
crash (missing simulated-value row, failed group lookup, out-of-range bucket
read) or the non-terminating bucket loop. `NUMBER_OF_BUCKETS = 10`. -/
def calculateProject (project : IProject) (environment : IMonteCarloEnvironment) :
    Option IProjectResult :=
  let requiredAmount :=
    calculateRequiredAmount project (environment.projectsByStartYear project.startYear)
  match environment.simulatedValues.get? project.startYear with
  | none => none
  | some row =>
    let sorted := sortValues row
    let n := sorted.length
    let groups := createGroups requiredAmount
      (environment.noInterestReferenceLine.get? project.startYear) environment.liquidity
    let bucketSize := jsRoundDiv n 10
    match bucketLoopAux groups sorted bucketSize n 0 [] [] with
    | none => none
    | some (buckets, valuesByGroup) =>
      let nonEmptyGroups :=
        (groups.filter (fun g => (valuesByGroup.lookup g.name).getD 0 != 0)).map
          (fun g => { g with percentage := ((valuesByGroup.lookup g.name).getD 0 : ℚ) / (n : ℚ) })
      let oneSixth := jsRoundDiv n 6
      some
        { buckets := buckets
          groups := nonEmptyGroups
          max := sorted.getD (n - 1) 0
          median := median sorted
          min := sorted.getD 0 0
          project := project
          twoThird := { max := sorted.getD (n - oneSixth) 0, min := sorted.getD oneSixth 0 } }

/-- Source function `calculateProject` (state component): the call sorts
`environment.simulatedValues[project.startYear]` in place before anything can
fail, so the shared environment keeps the sorted row afterwards. -/
def calculateProjectEnvAfter (project : IProject)
    (environment : IMonteCarloEnvironment) : IMonteCarloEnvironment :=
  match environment.simulatedValues.get? project.startYear with
  | none => environment
  | some row =>
    { environment with
        simulatedValues :=
          environment.simulatedValues.set project.startYear (sortValues row) }

/-- The loop of `syncMonteCarlo` over `options!.projects!`, threading the
environment mutated by each `calculateProject` call. -/
def runProjects : IMonteCarloEnvironment → List IProject → Option (List IProjectResult)
  | _, [] => some []
  | env, p :: ps =>
    match calculateProject p env with
    | none => none
    | some r => (runProjects (calculateProjectEnvAfter p env) ps).map (fun rest => r :: rest)

/-- Source function `syncMonteCarlo`: build the environment, then aggregate
each entry of the caller's `options.projects` array — which
`createMonteCarloEnvironment` has meanwhile sorted in place, so the loop runs
in stable startYear order. Iterating an absent `projects` is the JS crash. -/
def syncMonteCarlo (stream : ℕ → ℚ)
    (options : IMonteCarloSimulationOptions) : Option (List IProjectResult) :=
  match options.projects with
  | none => none
  | some ps =>
    let environment := createMonteCarloEnvironment stream (initOptions options)
    runProjects environment (sortByStartYear ps)

/-- The all-zero draw oracle (every normal sample 0). -/
def zeroStream : ℕ → ℚ := fun _ => 0

/-! ### Concrete fixtures used by witnesses and counterexamples -/

/-- Environment for a single-run slice (`numRuns = 1`): the sole simulated
value of the project's year is 1000000. -/
def envSingleRun : IMonteCarloEnvironment :=
  { investmentAmount := 1000000, liquidity := 10000, noInterestReferenceLine := [900000],
    numRuns := 1, numYears := 0, projectsByStartYear := fun _ => [⟨0, 0, 100000⟩],
    simulatedValues := [[1000000]] }

/-- Environment with an unsorted two-value slice for the mutation claims. -/
def envUnsortedRow : IMonteCarloEnvironment :=
  { investmentAmount := 1000, liquidity := 10, noInterestReferenceLine := [900],
    numRuns := 2, numYears := 0, projectsByStartYear := fun _ => [⟨0, 0, 100⟩],
    simulatedValues := [[2, 1]] }

/-- Environment with a five-value slice (the smallest slice the bucket loop
completes on) for the ordering-chain claim. -/
def envFiveValues : IMonteCarloEnvironment :=
  { investmentAmount := 1000000, liquidity := 10, noInterestReferenceLine := [500],
    numRuns := 5, numYears := 0, projectsByStartYear := fun _ => [⟨0, 0, 100⟩],
    simulatedValues := [[3, 1, 4, 1, 5]] }

/-- Initialized options whose projects are not sorted by `startYear`. -/
def optsUnsortedProjects : IInitializedMonteCarloSimulationOptions :=
  { numYears := 0, numRuns := 0, projects := [⟨0, 1, 30000⟩, ⟨1, 0, 50000⟩],
    investmentAmount := 0, performance := 0, liquidity := 0, volatility := 0 }

/-- Initialized options exercising the environment shape claim:
`numYears = 2` but the only project starts in year 0. -/
def optsShape : IInitializedMonteCarloSimulationOptions :=
  { numYears := 2, numRuns := 1, projects := [⟨0, 0, 100⟩], investmentAmount := 1000,
    performance := 0, liquidity := 0, volatility := 0 }

/-! ### Helper lemmas -/

lemma length_nirlAux (cf : ℕ → ℚ) : ∀ n year left, (nirlAux cf n year left).length = n := by
  intro n
  induction n with
  | zero => intro year left; rfl
  | succ k ih => intro year left; simp [nirlAux, ih]

lemma bucketLoopAux_zero_step (groups : List IGroup) (values : List ℚ) :
    ∀ fuel i buckets counts, i < values.length →
      bucketLoopAux groups values 0 fuel i buckets counts = none := by
  intro fuel
  induction fuel with
  | zero => intro i buckets counts hi; simp [bucketLoopAux, hi]
  | succ n ih =>
    intro i buckets counts hi
    simp only [bucketLoopAux, if_pos hi, bucketInner]
    simpa using ih i _ _ hi

/-! ### C6: option defaults -/

/-- C6 (amended): option initialization fills every unset field with a default
from the defaults object — numYears 10, numRuns 10000, investmentAmount
1000000, performance 0, liquidity 10000, and, contrary to the original claim,
also projects [] and volatility 0.01. -/
theorem c6_defaults_applied (options : IMonteCarloSimulationOptions) :
    (initOptions options).numYears = options.numYears.getD 10
    ∧ (initOptions options).numRuns = options.numRuns.getD 10000
    ∧ (initOptions options).investmentAmount = options.investmentAmount.getD 1000000
    ∧ (initOptions options).performance = options.performance.getD 0
    ∧ (initOptions options).liquidity = options.liquidity.getD 10000
    ∧ (initOptions options).projects = options.projects.getD []
    ∧ (initOptions options).volatility = options.volatility.getD (1/100) :=
  ⟨rfl, rfl, rfl, rfl, rfl, rfl, rfl⟩

/-- C6 counterexample: with no field set, initialization yields
`volatility = 0.01` and `projects = []` — both fields do receive defaults,
refuting that volatility is never given a default value. -/
theorem c6_volatility_gets_default_counterexample :
    (initOptions {}).volatility = 1/100 ∧ (initOptions {}).projects = [] :=
  ⟨by with_unfolding_all rfl, by with_unfolding_all rfl⟩

/-! ### C3: numRuns = 1 -/

/-- C3: for a single-value project-year slice (`numRuns = 1`) the computed
bucket size is `Math.round(1/10) = 0` and the bucket loop never advances:
it fails for every fuel value, so `calculateProject` never terminates —
it does not produce the single bucket the specification requires. -/
theorem c3_single_run_bucket_loop_diverges :
    jsRoundDiv 1 10 = 0
    ∧ (∀ fuel buckets counts,
        bucketLoopAux (createGroups 100000 (some 900000) 10000) [1000000] 0
          fuel 0 buckets counts = none)
    ∧ calculateProject ⟨0, 0, 100000⟩ envSingleRun = none := by
  refine ⟨rfl, ?_, ?_⟩
  · intro fuel buckets counts
    exact bucketLoopAux_zero_step _ _ fuel 0 buckets counts (by simp)
  · with_unfolding_all rfl
/-! ### C2: group bands -/

/-- C2 (amended): for every `requiredAmount`, `noInterestReferenceLine` value
and `liquidity`, the four bands built by `createGroups` cover all of ℚ, so
`groupForValue` always finds a group and its non-null assertion never fails;
the bands are moreover pairwise disjoint (every value in exactly one band)
provided `noInterestReferenceLine ≤ requiredAmount - liquidity` and
`0 ≤ liquidity` — but not for every parameter value, as the original claim
states. -/
theorem c2_bands (requiredAmount noInterestReference liquidity value : ℚ) :
    (groupForValue value (createGroups requiredAmount (some noInterestReference) liquidity)).isSome = true
    ∧ (noInterestReference ≤ requiredAmount - liquidity → 0 ≤ liquidity →
        (createGroups requiredAmount (some noInterestReference) liquidity).countP
          (fun g => memberB g value) = 1) := by
  have hgt : ∀ a b : ℚ, a < b → decide (b > a) = true := fun a b h => decide_eq_true h
  have hngt : ∀ a b : ℚ, b ≤ a → decide (b > a) = false :=
    fun a b h => decide_eq_false (not_lt.mpr h)
  constructor
  · simp only [createGroups, groupForValue, memberB, List.find?]
    rcases le_or_lt requiredAmount value with h1 | h1
    · rw [decide_eq_true h1]; rfl
    · rw [decide_eq_false (not_le.mpr h1)]
      rcases le_or_lt (requiredAmount - liquidity) value with h2 | h2
      · rw [decide_eq_true h2, hgt value requiredAmount h1]; rfl
      · rw [decide_eq_false (not_le.mpr h2)]
        rcases le_or_lt noInterestReference value with h3 | h3
        · rw [decide_eq_true h3, hgt value (requiredAmount - liquidity) h2]; rfl
        · rw [decide_eq_false (not_le.mpr h3), hgt value noInterestReference h3]
          rfl
  · intro hn hl
    simp only [createGroups, List.countP_cons, List.countP_nil, memberB]
    rcases le_or_lt requiredAmount value with h1 | h1
    · simp [decide_eq_true h1,
            decide_eq_true (show requiredAmount - liquidity ≤ value by linarith),
            hngt value requiredAmount h1,
            decide_eq_true (show noInterestReference ≤ value by linarith),
            hngt value (requiredAmount - liquidity) (by linarith),
            hngt value noInterestReference (by linarith)]
    · rcases le_or_lt (requiredAmount - liquidity) value with h2 | h2
      · simp [decide_eq_false (not_le.mpr h1), hgt value requiredAmount h1,
              decide_eq_true h2,
              decide_eq_true (show noInterestReference ≤ value by linarith),
              hngt value (requiredAmount - liquidity) h2,
              hngt value noInterestReference (by linarith)]
        linarith
      · rcases le_or_lt noInterestReference value with h3 | h3
        · simp [decide_eq_false (not_le.mpr h1), hgt value requiredAmount h1,
                decide_eq_false (not_le.mpr h2), hgt value (requiredAmount - liquidity) h2,
                decide_eq_true h3, hngt value noInterestReference h3]
          linarith
        · simp [decide_eq_false (not_le.mpr h1), hgt value requiredAmount h1,
                decide_eq_false (not_le.mpr h2), hgt value (requiredAmount - liquidity) h2,
                decide_eq_false (not_le.mpr h3), hgt value noInterestReference h3]
          linarith

/-- C2 witness: at `requiredAmount = 1`, `noInterestReferenceLine = 0`,
`liquidity = 1`, `value = 1/2`, the bands are ordered and the value lies in
exactly one band (yellow). -/
theorem c2_bands_witness :
    (groupForValue (1/2) (createGroups 1 (some 0) 1)).isSome = true
    ∧ (createGroups 1 (some 0) 1).countP (fun g => memberB g (1/2)) = 1 :=
  ⟨(c2_bands 1 0 1 (1/2)).1,
   (c2_bands 1 0 1 (1/2)).2 (by norm_num) (by norm_num)⟩

/-- C2 counterexample: with `requiredAmount = 0`, `noInterestReferenceLine = 1`
and `liquidity = 0` (reference line above the yellow threshold — a
configuration the code reaches routinely), the value 0 lies in two bands
(green and red), refuting the claimed no-overlap property for every
parameter value. -/
theorem c2_overlap_counterexample :
    (createGroups 0 (some 1) 0).countP (fun g => memberB g 0) = 2
    ∧ (2 : ℕ) ≠ 1 :=
  ⟨by with_unfolding_all rfl, by decide⟩

/-! ### C8: mutation of the shared state -/

/-- C8 (amended): a `calculateProject` call leaves every field of the
environment unchanged except `simulatedValues`, where exactly the project's
year row is replaced by its sorted permutation (the in-place
`Array.prototype.sort`); and after `createMonteCarloEnvironment` the caller's
projects array holds the stable startYear-sorted list, so it is unchanged
only when it was already sorted. -/
theorem c8_env_mutation_frame (p : IProject) (env : IMonteCarloEnvironment)
    (row : List ℚ) (h : env.simulatedValues.get? p.startYear = some row) :
    (calculateProjectEnvAfter p env).investmentAmount = env.investmentAmount
    ∧ (calculateProjectEnvAfter p env).liquidity = env.liquidity
    ∧ (calculateProjectEnvAfter p env).noInterestReferenceLine = env.noInterestReferenceLine
    ∧ (calculateProjectEnvAfter p env).numRuns = env.numRuns
    ∧ (calculateProjectEnvAfter p env).numYears = env.numYears
    ∧ (calculateProjectEnvAfter p env).projectsByStartYear = env.projectsByStartYear
    ∧ (calculateProjectEnvAfter p env).simulatedValues
        = env.simulatedValues.set p.startYear (sortValues row)
    ∧ (∀ y, y ≠ p.startYear →
        (calculateProjectEnvAfter p env).simulatedValues.get? y
          = env.simulatedValues.get? y) := by
  unfold calculateProjectEnvAfter
  rw [h]
  refine ⟨rfl, rfl, rfl, rfl, rfl, rfl, rfl, ?_⟩
  intro y hy
  simp [List.get?_eq_getElem?, List.getElem?_set_ne (Ne.symm hy)]

/-- C8 witness: on a concrete environment with an unsorted row, the frame
theorem applies: the row is replaced by its sorted version and `numRuns` is
untouched. -/
theorem c8_env_mutation_frame_witness :
    (calculateProjectEnvAfter ⟨0, 0, 100⟩ envUnsortedRow).simulatedValues
      = envUnsortedRow.simulatedValues.set 0 (sortValues [2, 1])
    ∧ (calculateProjectEnvAfter ⟨0, 0, 100⟩ envUnsortedRow).numRuns
        = envUnsortedRow.numRuns :=
  ⟨(c8_env_mutation_frame ⟨0, 0, 100⟩ envUnsortedRow [2, 1]
      (by with_unfolding_all rfl)).2.2.2.2.2.2.1,
   (c8_env_mutation_frame ⟨0, 0, 100⟩ envUnsortedRow [2, 1]
      (by with_unfolding_all rfl)).2.2.2.1⟩

/-- C8 counterexample: the environment is not left unchanged —
`calculateProject` on a project whose year row is `[2, 1]` leaves the shared
matrix holding `[1, 2]`; and `createMonteCarloEnvironment` reorders the
caller's (unsorted) projects array. -/
theorem c8_mutation_counterexample :
    (calculateProjectEnvAfter ⟨0, 0, 100⟩ envUnsortedRow).simulatedValues
        ≠ envUnsortedRow.simulatedValues
    ∧ projectsAfterCreateEnvironment optsUnsortedProjects
        ≠ optsUnsortedProjects.projects := by
  constructor
  · have h1 : (calculateProjectEnvAfter ⟨0, 0, 100⟩ envUnsortedRow).simulatedValues
        = [[1, 2]] := by with_unfolding_all rfl
    have h2 : envUnsortedRow.simulatedValues = [[2, 1]] := rfl
    rw [h1, h2]
    decide
  · have h1 : projectsAfterCreateEnvironment optsUnsortedProjects
        = [⟨1, 0, 50000⟩, ⟨0, 1, 30000⟩] := by with_unfolding_all rfl
    have h2 : optsUnsortedProjects.projects = [⟨0, 1, 30000⟩, ⟨1, 0, 50000⟩] := rfl
    rw [h1, h2]
    decide

/-! ### C10: environment shape -/

/-- C10 (amended): the schedule and matrix shapes are tied to the options'
`numYears`, not to the environment's own `numYears` field: the cash-flow
vector and the stored reference line have length `options.numYears`, the
simulated matrix has `options.numYears + 1` rows of `options.numRuns` entries
each, while the environment's `numYears` field holds the maximum `startYear`
of the projects to simulate (0 if none). -/
theorem c10_environment_shape (stream : ℕ → ℚ)
    (options : IInitializedMonteCarloSimulationOptions) :
    (projectsToCashFlows (envProjectsByStartYear options.projects) options.numYears).length
        = options.numYears
    ∧ (createMonteCarloEnvironment stream options).noInterestReferenceLine.length
        = options.numYears
    ∧ (createMonteCarloEnvironment stream options).simulatedValues.length
        = options.numYears + 1
    ∧ (∀ y, y < options.numYears + 1 →
        ((createMonteCarloEnvironment stream options).simulatedValues.getD y []).length
          = options.numRuns)
    ∧ (createMonteCarloEnvironment stream options).numYears
        = ((projectsToSimulate options).map (fun p => p.startYear)).foldl max 0 := by
  refine ⟨by simp [projectsToCashFlows], ?_, ?_, ?_, rfl⟩
  · show (calculateNoInterestReferenceLine _ _ _).length = _
    unfold calculateNoInterestReferenceLine
    exact length_nirlAux _ _ _ _
  · show (simulateOutcomes _ _ _ _ _ _ _).length = _
    simp [simulateOutcomes]
  · intro y hy
    show ((simulateOutcomes _ _ _ _ _ _ _).getD y []).length = _
    unfold simulateOutcomes
    rw [List.getD_eq_getElem _ _ (by simpa using hy)]
    simp

/-- C10 witness: shape facts at a concrete environment (`numYears = 2`,
`numRuns = 1`): row 0 has one entry and the reference line has length 2. -/
theorem c10_environment_shape_witness :
    ((createMonteCarloEnvironment zeroStream optsShape).simulatedValues.getD 0 []).length = 1
    ∧ (createMonteCarloEnvironment zeroStream optsShape).noInterestReferenceLine.length = 2 :=
  ⟨(c10_environment_shape zeroStream optsShape).2.2.2.1 0 (by decide),
   (c10_environment_shape zeroStream optsShape).2.1⟩

/-- C10 counterexample: the claimed invariant does not relate the
environment's own fields — with `options.numYears = 2` and a single project
starting in year 0, the matrix has 3 rows while the environment's `numYears`
field is 0, so `simulatedValues.length ≠ env.numYears + 1`. -/
theorem c10_env_numYears_counterexample :
    (createMonteCarloEnvironment zeroStream optsShape).simulatedValues.length = 3
    ∧ (createMonteCarloEnvironment zeroStream optsShape).numYears = 0
    ∧ (3 : ℕ) ≠ 0 + 1 :=
  ⟨by with_unfolding_all rfl, by with_unfolding_all rfl, by decide⟩

/-! ### More helper lemmas: stable sort, takeWhile, indexed access -/

lemma calculateProject_inversion (p : IProject) (env : IMonteCarloEnvironment)
    (r : IProjectResult) (h : calculateProject p env = some r) :
    ∃ row, env.simulatedValues.get? p.startYear = some row
      ∧ (∃ buckets counts,
          bucketLoopAux
            (createGroups (calculateRequiredAmount p (env.projectsByStartYear p.startYear))
              (env.noInterestReferenceLine.get? p.startYear) env.liquidity)
            (sortValues row) (jsRoundDiv (sortValues row).length 10)
            (sortValues row).length 0 [] [] = some (buckets, counts))
      ∧ r.project = p
      ∧ r.min = (sortValues row).getD 0 0
      ∧ r.max = (sortValues row).getD ((sortValues row).length - 1) 0
      ∧ r.median = median (sortValues row)
      ∧ r.twoThird.min = (sortValues row).getD (jsRoundDiv (sortValues row).length 6) 0
      ∧ r.twoThird.max
          = (sortValues row).getD
              ((sortValues row).length - jsRoundDiv (sortValues row).length 6) 0 := by
  unfold calculateProject at h
  rcases hrow : env.simulatedValues.get? p.startYear with _ | row
  · rw [hrow] at h; exact Option.noConfusion h
  · rw [hrow] at h
    dsimp only at h
    refine ⟨row, rfl, ?_⟩
    rcases hb : bucketLoopAux
        (createGroups (calculateRequiredAmount p (env.projectsByStartYear p.startYear))
          (env.noInterestReferenceLine.get? p.startYear) env.liquidity)
        (sortValues row) (jsRoundDiv (sortValues row).length 10)
        (sortValues row).length 0 [] [] with _ | pair
    · rw [hb] at h; exact Option.noConfusion h
    · rw [hb] at h
      obtain ⟨buckets, counts⟩ := pair
      rw [← Option.some.inj h]
      exact ⟨⟨buckets, counts, rfl⟩, rfl, rfl, rfl, rfl, rfl, rfl⟩

lemma filter_orderedInsert_startYear (x : IProject) (l : List IProject) (y : ℕ) :
    (List.orderedInsert (fun a b => a.startYear ≤ b.startYear) x l).filter
        (fun p => p.startYear == y)
      = if x.startYear = y
        then x :: l.filter (fun p => p.startYear == y)
        else l.filter (fun p => p.startYear == y) := by
  induction l with
  | nil =>
    by_cases hx : x.startYear = y
    · simp [List.orderedInsert, List.filter, beq_iff_eq.mpr hx, hx]
    · simp [List.orderedInsert, List.filter, beq_eq_false_iff_ne.mpr hx, hx]
  | cons b t ih =>
    simp only [List.orderedInsert]
    by_cases hle : x.startYear ≤ b.startYear
    · rw [if_pos hle]
      by_cases hx : x.startYear = y <;> simp [List.filter_cons, hx]
    · rw [if_neg hle]
      have hblt : b.startYear < x.startYear := not_le.mp hle
      by_cases hx : x.startYear = y
      · have hb : b.startYear ≠ y := by omega
        simp [List.filter_cons, hb, ih, hx]
      · by_cases hb : b.startYear = y <;> simp [List.filter_cons, hb, ih, hx]

lemma filter_sortByStartYear (l : List IProject) (y : ℕ) :
    (sortByStartYear l).filter (fun p => p.startYear == y)
      = l.filter (fun p => p.startYear == y) := by
  induction l with
  | nil => rfl
  | cons b t ih =>
    show (List.orderedInsert _ b (List.insertionSort _ t)).filter _ = _
    rw [filter_orderedInsert_startYear]
    simp only [sortByStartYear] at ih
    by_cases hb : b.startYear = y <;> simp [List.filter_cons, hb, ih, beq_iff_eq]

lemma envProjectsByStartYear_eq (ps : List IProject) (y : ℕ) :
    envProjectsByStartYear ps y = ps.filter (fun p => p.startYear == y) :=
  filter_sortByStartYear ps y

lemma takeWhile_append_middle {α : Type} (pred : α → Bool) :
    ∀ (l1 : List α) (x : α) (l2 : List α),
      (∀ a ∈ l1, pred a = true) → pred x = false →
      (l1 ++ x :: l2).takeWhile pred = l1 := by
  intro l1
  induction l1 with
  | nil => intro x l2 _ hx; simp [List.takeWhile, hx]
  | cons a t ih =>
    intro x l2 hall hx
    have ha : pred a = true := hall a (by simp)
    simp only [List.cons_append, List.takeWhile_cons, ha]
    simp [ih x l2 (fun b hb => hall b (by simp [hb])) hx]

lemma getD_range_map {α : Type} (f : ℕ → α) (d : α) {n y : ℕ} (h : y < n) :
    ((List.range n).map f).getD y d = f y := by
  rw [List.getD_eq_getElem _ _ (by simpa using h)]
  simp

lemma nirlAux_getD (cf : ℕ → ℚ) :
    ∀ n k year left, k < n →
      (nirlAux cf n year left).getD k 0
        = left + ((List.range (k + 1)).map (fun j => cf (year + j))).sum := by
  intro n
  induction n with
  | zero => intro k year left h; exact absurd h (Nat.not_lt_zero k)
  | succ m ih =>
    intro k year left hk
    cases k with
    | zero => simp [nirlAux, List.range_succ]
    | succ k2 =>
      have hk2 : k2 < m := by omega
      show ((left + cf year) :: nirlAux cf m (year + 1) (left + cf year)).getD (k2 + 1) 0 = _
      rw [List.getD_cons_succ, ih k2 (year + 1) (left + cf year) hk2]
      have hmap : (List.range (k2 + 1 + 1)).map (fun j => cf (year + j))
          = cf year :: (List.range (k2 + 1)).map (fun j => cf (year + 1 + j)) := by
        rw [List.range_succ_eq_map]
        simp only [List.map_cons, List.map_map, Nat.add_zero, List.cons.injEq]
        refine ⟨trivial, List.map_congr_left ?_⟩
        intro a _
        simp only [Function.comp]
        congr 1
        omega
      rw [hmap, List.sum_cons]
      ring


/-! ### C4: required amount -/

/-- C4: for a project list decomposed as `l1 ++ p :: l2` (so `l1` is exactly
the input-order prefix before `p`), with `p` a distinct object from the
entries of `l1`, the required amount computed against the environment's
grouped dictionary is `p`'s own `totalAmount` plus the amounts of exactly the
same-`startYear` projects that precede it in input order. -/
theorem c4_required_amount (l1 l2 : List IProject) (p : IProject)
    (hp : p.id ∉ l1.map (fun q => q.id)) :
    calculateRequiredAmount p (envProjectsByStartYear (l1 ++ p :: l2) p.startYear)
      = p.totalAmount
        + ((l1.filter (fun q => q.startYear == p.startYear)).map
            (fun q => q.totalAmount)).sum := by
  unfold calculateRequiredAmount
  rw [envProjectsByStartYear_eq, List.filter_append, List.filter_cons]
  have hpy : (p.startYear == p.startYear) = true := by simp
  simp only [hpy, eq_self_iff_true, if_true]
  rw [takeWhile_append_middle _ _ p _ ?hall ?hx]
  case hall =>
    intro a ha
    have hmem : a ∈ l1 := List.mem_of_mem_filter ha
    have hne : a.id ≠ p.id := by
      intro hcontra
      exact hp (hcontra ▸ List.mem_map_of_mem (fun q => q.id) hmem)
    simpa using hne
  case hx => simp

/-- C4 witness (scenario B): two projects sharing `startYear = 0` with
amounts 50000 then 30000 in input order — the second project's required
amount is 80000. -/
theorem c4_required_amount_witness :
    calculateRequiredAmount ⟨1, 0, 30000⟩
        (envProjectsByStartYear [⟨0, 0, 50000⟩, ⟨1, 0, 30000⟩] 0)
      = 80000 := by
  have h := c4_required_amount [⟨0, 0, 50000⟩] [] ⟨1, 0, 30000⟩ (by decide)
  exact h.trans (by with_unfolding_all rfl)


/-! ### C5: schedule builder -/

/-- C5: for every grouped project list, `numYears` and `investmentAmount`,
`cashFlows[y]` is the negative sum of `totalAmount` over projects with
`startYear == y`, and `noInterestReferenceLine[y]` is the running balance
starting at `investmentAmount` decremented by each year's outflow, with no
growth applied. -/
theorem c5_schedule (ps : List IProject) (numYears : ℕ) (investmentAmount : ℚ)
    (y : ℕ) (hy : y < numYears) :
    (projectsToCashFlows (envProjectsByStartYear ps) numYears).getD y 0
      = -(((ps.filter (fun p => p.startYear == y)).map (fun p => p.totalAmount)).sum)
    ∧ (calculateNoInterestReferenceLine
          (projectsToCashFlows (envProjectsByStartYear ps) numYears)
          investmentAmount numYears).getD y 0
        = investmentAmount
          + ((List.range (y + 1)).map
              (fun k =>
                -(((ps.filter (fun p => p.startYear == k)).map
                    (fun p => p.totalAmount)).sum))).sum := by
  have hcf : ∀ k, k < numYears →
      (projectsToCashFlows (envProjectsByStartYear ps) numYears).getD k 0
        = -(((ps.filter (fun p => p.startYear == k)).map (fun p => p.totalAmount)).sum) := by
    intro k hk
    unfold projectsToCashFlows
    rw [getD_range_map _ _ hk, envProjectsByStartYear_eq]
  refine ⟨hcf y hy, ?_⟩
  unfold calculateNoInterestReferenceLine
  rw [nirlAux_getD _ numYears y 0 investmentAmount hy]
  refine congrArg₂ _ rfl (congrArg List.sum (List.map_congr_left ?_))
  intro j hj
  have hjy : j < numYears := by
    have := List.mem_range.mp hj
    omega
  rw [Nat.zero_add]
  exact hcf j hjy

/-- C5 witness (scenario A): one project with `startYear = 0`,
`totalAmount = 100000` under `investmentAmount = 1000000` gives
`noInterestReferenceLine[0] = 900000`. -/
theorem c5_schedule_witness :
    (projectsToCashFlows (envProjectsByStartYear [⟨0, 0, 100000⟩]) 1).getD 0 0 = -100000
    ∧ (calculateNoInterestReferenceLine
        (projectsToCashFlows (envProjectsByStartYear [⟨0, 0, 100000⟩]) 1)
        1000000 1).getD 0 0 = 900000 := by
  have h := c5_schedule [⟨0, 0, 100000⟩] 1 1000000 0 (by decide)
  exact ⟨h.1.trans (by with_unfolding_all rfl), h.2.trans (by with_unfolding_all rfl)⟩

/-! ### Driver-level helper lemmas -/

lemma length_simulatedValues (stream : ℕ → ℚ)
    (options : IInitializedMonteCarloSimulationOptions) :
    (createMonteCarloEnvironment stream options).simulatedValues.length
      = options.numYears + 1 := by
  show (simulateOutcomes _ _ _ _ _ _ _).length = _
  simp [simulateOutcomes]

lemma calculateProject_project (p : IProject) (env : IMonteCarloEnvironment)
    (r : IProjectResult) (h : calculateProject p env = some r) : r.project = p :=
  (calculateProject_inversion p env r h).choose_spec.2.2.1

lemma runProjects_spec :
    ∀ (l : List IProject) (env : IMonteCarloEnvironment) (rs : List IProjectResult),
      runProjects env l = some rs →
      rs.map (fun r => r.project) = l ∧ rs.length = l.length := by
  intro l
  induction l with
  | nil =>
    intro env rs h
    obtain rfl := Option.some.inj h
    exact ⟨rfl, rfl⟩
  | cons p ps ih =>
    intro env rs h
    unfold runProjects at h
    rcases hc : calculateProject p env with _ | r
    · rw [hc] at h; exact Option.noConfusion h
    · rw [hc] at h
      rcases hr : runProjects (calculateProjectEnvAfter p env) ps with _ | rest
      · rw [hr] at h; exact Option.noConfusion h
      · rw [hr] at h
        simp only [Option.map_some'] at h
        obtain rfl := Option.some.inj h
        obtain ⟨hmap, hlen⟩ := ih (calculateProjectEnvAfter p env) rest hr
        constructor
        · simp [hmap, calculateProject_project p env r hc]
        · simp [hlen]

def optsEmptyProjects : IMonteCarloSimulationOptions :=
  { projects := some [], numYears := some 0, numRuns := some 1, volatility := some 0 }

def optsTwoUnsorted : IMonteCarloSimulationOptions :=
  { numYears := some 2, numRuns := some 5, projects := some [⟨0, 1, 30000⟩, ⟨1, 0, 50000⟩],
    investmentAmount := some 1000000, performance := some 0, volatility := some 0,
    liquidity := some 10000 }

/-! ### C1: synchronous driver -/

/-- C1 (amended): whenever `syncMonteCarlo` returns a result list, the list
has one `ProjectResult` per input project (equal lengths) and its order is
the stable startYear-sorted order of the caller's projects array — which the
in-place `Array.prototype.sort` produced — so it equals the original input
order only when the input was already sorted by `startYear`; zero projects
yield an empty list, not an error. -/
theorem c1_sync_results (stream : ℕ → ℚ) (options : IMonteCarloSimulationOptions)
    (ps : List IProject) (rs : List IProjectResult)
    (hps : options.projects = some ps)
    (h : syncMonteCarlo stream options = some rs) :
    rs.length = ps.length ∧ rs.map (fun r => r.project) = sortByStartYear ps := by
  unfold syncMonteCarlo at h
  rw [hps] at h
  dsimp only at h
  obtain ⟨hmap, hlen⟩ := runProjects_spec _ _ _ h
  refine ⟨?_, hmap⟩
  rw [hlen]
  simp [sortByStartYear]

/-- C1 witness: the empty-projects options value runs the pipeline and
returns the empty result list. -/
theorem c1_sync_results_witness :
    syncMonteCarlo zeroStream optsEmptyProjects = some []
    ∧ ([] : List IProjectResult).length = ([] : List IProject).length
    ∧ ([] : List IProjectResult).map (fun r => r.project) = sortByStartYear [] :=
  ⟨by with_unfolding_all rfl,
   (c1_sync_results zeroStream optsEmptyProjects [] [] rfl (by with_unfolding_all rfl)).1,
   (c1_sync_results zeroStream optsEmptyProjects [] [] rfl (by with_unfolding_all rfl)).2⟩

/-- C1 counterexample: with two projects supplied in the order
`[startYear 1, startYear 0]`, the synchronous driver returns the results in
sorted order `[startYear 0, startYear 1]`, not in the original input order. -/
theorem c1_input_order_counterexample :
    (syncMonteCarlo zeroStream optsTwoUnsorted).map (fun rs => rs.map (fun r => r.project))
      = some [⟨1, 0, 50000⟩, ⟨0, 1, 30000⟩]
    ∧ optsTwoUnsorted.projects = some [⟨0, 1, 30000⟩, ⟨1, 0, 50000⟩]
    ∧ ([(⟨1, 0, 50000⟩ : IProject), ⟨0, 1, 30000⟩] ≠ [⟨0, 1, 30000⟩, ⟨1, 0, 50000⟩]) :=
  ⟨by with_unfolding_all rfl, rfl, by decide⟩

def optsNoVolZeroYears : IMonteCarloSimulationOptions :=
  { numYears := some 0, numRuns := some 1, projects := some [], volatility := none }

def optsInvalidYetSimulated : IMonteCarloSimulationOptions :=
  { numYears := some 0, numRuns := some 5, projects := some [⟨0, 0, 1000⟩], volatility := none }

/-! ### C7: invalid options -/

/-- C7 (amended): options initialization performs no validation and never
raises: an explicitly supplied `numYears` — including the invalid value 0 —
is passed through unchanged, a missing `volatility` silently becomes 0.01,
and a project with `startYear > numYears` fails only later, inside
`calculateProject`, when its simulated-value row is missing. -/
theorem c7_no_validation (options : IMonteCarloSimulationOptions)
    (stream : ℕ → ℚ) (p : IProject) (n : ℕ)
    (hn : options.numYears = some n) :
    (initOptions options).numYears = n
    ∧ (options.volatility = none → (initOptions options).volatility = 1/100)
    ∧ (n < p.startYear →
        calculateProject p (createMonteCarloEnvironment stream (initOptions options)) = none) := by
  refine ⟨by simp [initOptions, hn], fun hv => by simp [initOptions, hv], ?_⟩
  intro hgt
  have hrow : (createMonteCarloEnvironment stream (initOptions options)).simulatedValues.get?
      p.startYear = none := by
    rw [List.get?_eq_none]
    rw [length_simulatedValues]
    have : (initOptions options).numYears = n := by simp [initOptions, hn]
    omega
  unfold calculateProject
  rw [hrow]

/-- C7 witness: concrete invalid options (`numYears = 0`, missing
volatility) are initialized without error, and aggregating a year-1 project
against the resulting environment fails at aggregation time. -/
theorem c7_no_validation_witness :
    (initOptions optsNoVolZeroYears).numYears = 0
    ∧ (initOptions optsNoVolZeroYears).volatility = 1/100
    ∧ calculateProject ⟨0, 1, 5⟩
        (createMonteCarloEnvironment zeroStream (initOptions optsNoVolZeroYears)) = none :=
  ⟨(c7_no_validation optsNoVolZeroYears zeroStream ⟨0, 1, 5⟩ 0 rfl).1,
   (c7_no_validation optsNoVolZeroYears zeroStream ⟨0, 1, 5⟩ 0 rfl).2.1 rfl,
   (c7_no_validation optsNoVolZeroYears zeroStream ⟨0, 1, 5⟩ 0 rfl).2.2 (by decide)⟩

/-- C7 counterexample: an options value that is invalid on two counts
(missing `volatility`, and a project with `startYear ≥ numYears = 0`)
produces a full simulation result, refuting that the error is raised at
initialization and that no simulation output is produced. -/
theorem c7_invalid_options_simulate_counterexample :
    optsInvalidYetSimulated.volatility = none
    ∧ optsInvalidYetSimulated.numYears = some 0
    ∧ (syncMonteCarlo zeroStream optsInvalidYetSimulated).isSome = true :=
  ⟨rfl, rfl, by with_unfolding_all rfl⟩

lemma sortValues_length (l : List ℚ) : (sortValues l).length = l.length :=
  List.length_insertionSort _ _

lemma sortValues_sorted (l : List ℚ) : (sortValues l).Pairwise (fun a b => a ≤ b) := by
  have h := List.sorted_insertionSort (fun a b : ℚ => a ≤ b) l
  simpa [List.Sorted] using h

lemma sorted_getD_mono {l : List ℚ} (hs : l.Pairwise (fun a b : ℚ => a ≤ b)) {i j : ℕ}
    (hij : i ≤ j) (hj : j < l.length) : l.getD i 0 ≤ l.getD j 0 := by
  rcases eq_or_lt_of_le hij with rfl | hlt
  · exact le_refl _
  · have hi : i < l.length := lt_trans hlt hj
    rw [List.getD_eq_getElem _ _ hi, List.getD_eq_getElem _ _ hj]
    have := List.pairwise_iff_get.mp hs ⟨i, hi⟩ ⟨j, hj⟩ hlt
    simpa using this

lemma bucketLoopAux_success_bucketSize {groups : List IGroup} {values : List ℚ}
    {bucketSize fuel i : ℕ} {buckets : List IBucket} {counts : List (String × ℕ)}
    {out : List IBucket × List (String × ℕ)}
    (h : bucketLoopAux groups values bucketSize fuel i buckets counts = some out)
    (hi : i < values.length) : 1 ≤ bucketSize := by
  by_contra hb
  have hb0 : bucketSize = 0 := by omega
  subst hb0
  rw [bucketLoopAux_zero_step groups values fuel i buckets counts hi] at h
  exact Option.noConfusion h

/-! ### C9: ordering chain -/

/-- C9: whenever `calculateProject` produces a `ProjectResult` from a
nonempty slice, the chain
`min ≤ twoThird.min ≤ median ≤ twoThird.max ≤ max` holds, with the stats
read off the sorted slice and `oneSixth = round(N/6)` trimmed from each end.
(The bucket loop only completes for slices of at least 5 values, which the
proof recovers from the success hypothesis.) -/
theorem c9_ordering_chain (p : IProject) (env : IMonteCarloEnvironment)
    (r : IProjectResult) (h : calculateProject p env = some r)
    (hne : 1 ≤ (env.simulatedValues.getD p.startYear []).length) :
    r.min ≤ r.twoThird.min ∧ r.twoThird.min ≤ r.median
    ∧ r.median ≤ r.twoThird.max ∧ r.twoThird.max ≤ r.max := by
  obtain ⟨row, hrow, ⟨buckets, counts, hb⟩, hproj, hmin, hmax, hmed, htmin, htmax⟩ :=
    calculateProject_inversion p env r h
  have hrl : env.simulatedValues.getD p.startYear [] = row := by
    rw [List.getD_eq_getElem?_getD, ← List.get?_eq_getElem?, hrow]
    rfl
  have hlen : (sortValues row).length = row.length := sortValues_length row
  have hN1 : 1 ≤ (sortValues row).length := by rw [hlen]; rw [hrl] at hne; exact hne
  have hbs : 1 ≤ jsRoundDiv (sortValues row).length 10 :=
    bucketLoopAux_success_bucketSize hb (by omega)
  have hbs_eq : jsRoundDiv (sortValues row).length 10 = ((sortValues row).length + 5) / 10 := by
    unfold jsRoundDiv; omega
  have hN5 : 5 ≤ (sortValues row).length := by omega
  have hk_eq : jsRoundDiv (sortValues row).length 6 = ((sortValues row).length + 3) / 6 := by
    unfold jsRoundDiv; omega
  have hsorted := sortValues_sorted row
  rw [hmin, hmax, hmed, htmin, htmax]
  unfold median
  by_cases hpar : (sortValues row).length % 2 = 1
  · rw [if_pos hpar]
    exact ⟨sorted_getD_mono hsorted (by omega) (by omega),
           sorted_getD_mono hsorted (by omega) (by omega),
           sorted_getD_mono hsorted (by omega) (by omega),
           sorted_getD_mono hsorted (by omega) (by omega)⟩
  · rw [if_neg hpar]
    have hpar2 : (sortValues row).length % 2 = 0 := by omega
    have e1 : (sortValues row).getD (jsRoundDiv (sortValues row).length 6) 0
        ≤ (sortValues row).getD ((sortValues row).length / 2 - 1) 0 :=
      sorted_getD_mono hsorted (by omega) (by omega)
    have e2 : (sortValues row).getD ((sortValues row).length / 2 - 1) 0
        ≤ (sortValues row).getD ((sortValues row).length / 2) 0 :=
      sorted_getD_mono hsorted (by omega) (by omega)
    have e3 : (sortValues row).getD ((sortValues row).length / 2) 0
        ≤ (sortValues row).getD
            ((sortValues row).length - jsRoundDiv (sortValues row).length 6) 0 :=
      sorted_getD_mono hsorted (by omega) (by omega)
    refine ⟨sorted_getD_mono hsorted (by omega) (by omega), ?_, ?_,
            sorted_getD_mono hsorted (by omega) (by omega)⟩
    · linarith
    · linarith

def resultFiveValues : IProjectResult :=
  (calculateProject ⟨0, 0, 100⟩ envFiveValues).getD
    { min := 0, max := 0, median := 0, twoThird := ⟨0, 0⟩, buckets := [], groups := [],
      project := ⟨0, 0, 100⟩ }

/-- C9 witness: on a concrete five-value slice `[3, 1, 4, 1, 5]` the chain
holds for the computed result. -/
theorem c9_ordering_chain_witness :
    calculateProject ⟨0, 0, 100⟩ envFiveValues = some resultFiveValues
    ∧ (resultFiveValues.min ≤ resultFiveValues.twoThird.min
       ∧ resultFiveValues.twoThird.min ≤ resultFiveValues.median
       ∧ resultFiveValues.median ≤ resultFiveValues.twoThird.max
       ∧ resultFiveValues.twoThird.max ≤ resultFiveValues.max) :=
  ⟨by with_unfolding_all rfl,
   c9_ordering_chain ⟨0, 0, 100⟩ envFiveValues resultFiveValues
     (by with_unfolding_all rfl)
     (by
        have h5 : (envFiveValues.simulatedValues.getD 0 []).length = 5 := by
          with_unfolding_all rfl
        simp only [h5]
        omega)⟩
